import Mathlib

/-!
Verification of the letsblog dual-mode data-access layer.

This file gives a shallow embedding of the client-side data-access layer
(`src/services/api.ts`: the mode selector and the localStorage fallback
store) and of the backend route handlers (`server/index.js`), and proves
the specified properties about them.

Modelling conventions:
* localStorage is a `LocalState` record holding the three persisted
  collections (`users`, the current `user` record, `posts`); every local
  operation is a function `LocalState → Except String α × LocalState`
  returning the operation's result (resolution or rejection message,
  exactly the strings of the source) together with the state left behind.
* Nondeterministic inputs of the source — `crypto.randomUUID()`,
  `new Date().toISOString()`, `Date.now()` — are passed in as explicit
  `freshId` / `now` parameters.
* JS string falsiness (`x || d` where `x` may be `undefined` or `""`) is
  captured by `jsOrStr`; `Partial<Post>` payloads become records of
  `Option` fields, where `none` means the key is absent.
* The backend's MongoDB state is a `ServerState`; bcrypt hashing is kept
  abstract (the stored hash is a parameter, and login takes the comparison
  function, whose contract `compare pw (hash pw) = true` is a hypothesis
  where needed). jwt verification is abstracted into a `TokenCheck` input
  describing the outcome of the Authorization-header inspection.
-/

namespace LetsBlog

/-- JS `x || d` where `x : string | undefined`: the default is taken when
the value is absent or the empty string (both falsy). -/
def jsOrStr : Option String → String → String
  | some s, d => if s = "" then d else s
  | none, d => d

/-- Replace the first element satisfying `p` by its image under `f`; this is
the JS pattern `arr[arr.findIndex(p)] = f(arr[arr.findIndex(p)])` followed by
writing the whole array back. -/
def modifyFirst (p : α → Bool) (f : α → α) : List α → List α
  | [] => []
  | x :: xs => if p x then f x :: xs else x :: modifyFirst p f xs

/-! ## Local data model (the shapes stored in localStorage) -/

/-- A registered user as stored in the `users` collection of the local
fallback store (plaintext password, cf. `registerLocal`). -/
structure UserRec where
  id : String
  username : String
  email : String
  password : String
  bio : String
  avatar : String
deriving DecidableEq

/-- The user object returned by login/register and held in the `user`
record: exactly the non-password fields of `UserRec`
(`const { password: _, ...userWithoutPassword } = user`). -/
structure SessionUser where
  id : String
  username : String
  email : String
  bio : String
  avatar : String
deriving DecidableEq

/-- Drop the password field of a stored user. -/
def stripPassword (u : UserRec) : SessionUser :=
  { id := u.id, username := u.username, email := u.email
    bio := u.bio, avatar := u.avatar }

/-- The denormalized author snapshot stored on posts and comments. -/
structure AuthorSnap where
  id : String
  username : String
  avatar : String
deriving DecidableEq

/-- A comment embedded in a post. -/
structure CommentRec where
  id : String
  content : String
  author : AuthorSnap
  createdAt : String
deriving DecidableEq

/-- A post as stored in the `posts` collection. -/
structure PostRec where
  id : String
  title : String
  content : String
  excerpt : String
  coverImage : Option String
  author : AuthorSnap
  createdAt : String
  updatedAt : String
  tags : List String
  likes : Nat
  comments : List CommentRec
deriving DecidableEq

/-- A `Partial<Post>` payload: each key may be absent. -/
structure PostPatch where
  id : Option String := none
  title : Option String := none
  content : Option String := none
  excerpt : Option String := none
  coverImage : Option String := none
  author : Option AuthorSnap := none
  createdAt : Option String := none
  updatedAt : Option String := none
  tags : Option (List String) := none
  likes : Option Nat := none
  comments : Option (List CommentRec) := none
deriving DecidableEq

/-- JS object spread `{ ...post, ...postData }`: every key present in the
payload overrides the stored post's field. -/
def applyPostPatch (p : PostRec) (d : PostPatch) : PostRec :=
  { id := d.id.getD p.id
    title := d.title.getD p.title
    content := d.content.getD p.content
    excerpt := d.excerpt.getD p.excerpt
    coverImage := match d.coverImage with
      | some c => some c
      | none => p.coverImage
    author := d.author.getD p.author
    createdAt := d.createdAt.getD p.createdAt
    updatedAt := d.updatedAt.getD p.updatedAt
    tags := d.tags.getD p.tags
    likes := d.likes.getD p.likes
    comments := d.comments.getD p.comments }

/-- The profile-update payload handed to `updateProfileLocal` (typed `any`
in the source, spread over the stored user, so any user key may appear). -/
structure ProfilePatch where
  id : Option String := none
  username : Option String := none
  email : Option String := none
  password : Option String := none
  bio : Option String := none
  avatar : Option String := none
deriving DecidableEq

/-- JS object spread `{ ...users[userIndex], ...data }`. -/
def applyProfilePatch (u : UserRec) (d : ProfilePatch) : UserRec :=
  { id := d.id.getD u.id
    username := d.username.getD u.username
    email := d.email.getD u.email
    password := d.password.getD u.password
    bio := d.bio.getD u.bio
    avatar := d.avatar.getD u.avatar }

/-- The three persisted localStorage records: `users`, `user` (the
currently authenticated user, written by the auth context), `posts`. -/
structure LocalState where
  users : List UserRec
  currentUser : Option SessionUser
  posts : List PostRec
deriving DecidableEq

/-! ## Local fallback operations (`xxxLocal` in `api.ts`) -/

/-- `loginLocal`: find a user by exact email+password match; reject
otherwise; return the user without the password field. Never writes. -/
def loginLocal (email password : String) (s : LocalState) :
    Except String SessionUser × LocalState :=
  match s.users.find? (fun u => u.email == email && u.password == password) with
  | none => (.error "Invalid email or password", s)
  | some u => (.ok (stripPassword u), s)

/-- The avatar URL minted for a fresh registration. -/
def defaultAvatar (username : String) : String :=
  "https://ui-avatars.com/api/?name=" ++ username ++ "&background=random"

/-- `registerLocal`: reject a duplicate email, then a duplicate username;
otherwise append the new user (plaintext password) and return it without
the password field. -/
def registerLocal (username email password freshId : String) (s : LocalState) :
    Except String SessionUser × LocalState :=
  if s.users.any (fun u => u.email == email) then
    (.error "Email already in use", s)
  else if s.users.any (fun u => u.username == username) then
    (.error "Username already taken", s)
  else
    let newUser : UserRec :=
      { id := freshId, username := username, email := email, password := password
        bio := "", avatar := defaultAvatar username }
    (.ok (stripPassword newUser), { s with users := s.users ++ [newUser] })

/-- `updateProfileLocal`: requires the `user` record; locates the current
user in `users` by id and spreads the whole payload over it; returns the
updated record without the password field. -/
def updateProfileLocal (data : ProfilePatch) (s : LocalState) :
    Except String SessionUser × LocalState :=
  match s.currentUser with
  | none => (.error "User not found", s)
  | some cu =>
    match s.users.find? (fun u => u.id == cu.id) with
    | none => (.error "User not found", s)
    | some u =>
      (.ok (stripPassword (applyProfilePatch u data)),
        { s with users :=
            modifyFirst (fun x => x.id == cu.id) (fun x => applyProfilePatch x data) s.users })

/-- `getPostsLocal`: return the whole posts collection; never fails. -/
def getPostsLocal (s : LocalState) : Except String (List PostRec) × LocalState :=
  (.ok s.posts, s)

/-- `getPostByIdLocal`: find a post by id or reject with not-found. -/
def getPostByIdLocal (id : String) (s : LocalState) :
    Except String PostRec × LocalState :=
  match s.posts.find? (fun p => p.id == id) with
  | none => (.error ("Post with id " ++ id ++ " not found"), s)
  | some p => (.ok p, s)

/-- `createPostLocal`: requires the `user` record; builds the new post with
JS-falsiness defaults (`title || 'Untitled'`,
`excerpt || content?.substring(0, 150) || ''`, `tags || []`), the author
snapshot from the current user, `likes: 0`, no comments; prepends it
(`unshift`). -/
def createPostLocal (postData : PostPatch) (freshId now : String) (s : LocalState) :
    Except String PostRec × LocalState :=
  match s.currentUser with
  | none => (.error "You must be logged in to create a post", s)
  | some cu =>
    let newPost : PostRec :=
      { id := freshId
        title := jsOrStr postData.title "Untitled"
        content := jsOrStr postData.content ""
        excerpt := jsOrStr postData.excerpt
          (jsOrStr (postData.content.map (fun c => c.take 150)) "")
        coverImage := postData.coverImage
        author := { id := cu.id, username := cu.username, avatar := cu.avatar }
        createdAt := now
        updatedAt := now
        tags := postData.tags.getD []
        likes := 0
        comments := [] }
    (.ok newPost, { s with posts := newPost :: s.posts })

/-- `updatePostLocal`: requires the `user` record; not-found if no post has
the id; ownership check against the author snapshot; then spreads the
payload over the stored post and stamps `updatedAt`. -/
def updatePostLocal (id : String) (postData : PostPatch) (now : String)
    (s : LocalState) : Except String PostRec × LocalState :=
  match s.currentUser with
  | none => (.error "You must be logged in to update a post", s)
  | some cu =>
    match s.posts.find? (fun p => p.id == id) with
    | none => (.error ("Post with id " ++ id ++ " not found"), s)
    | some post =>
      if post.author.id == cu.id then
        let newPost := { applyPostPatch post postData with updatedAt := now }
        (.ok newPost,
          { s with posts := modifyFirst (fun p => p.id == id) (fun _ => newPost) s.posts })
      else
        (.error "You can only update your own posts", s)

/-- `deletePostLocal`: same authentication, not-found and ownership checks
as update; then `splice` removes the first post with the id. -/
def deletePostLocal (id : String) (s : LocalState) :
    Except String Unit × LocalState :=
  match s.currentUser with
  | none => (.error "You must be logged in to delete a post", s)
  | some cu =>
    match s.posts.find? (fun p => p.id == id) with
    | none => (.error ("Post with id " ++ id ++ " not found"), s)
    | some post =>
      if post.author.id == cu.id then
        (.ok (), { s with posts := s.posts.eraseP (fun p => p.id == id) })
      else
        (.error "You can only delete your own posts", s)

/-- `addCommentLocal`: requires the `user` record; not-found if no post has
the id; no ownership check; appends the comment to the post's sequence. -/
def addCommentLocal (postId content freshId now : String) (s : LocalState) :
    Except String CommentRec × LocalState :=
  match s.currentUser with
  | none => (.error "You must be logged in to comment", s)
  | some cu =>
    match s.posts.find? (fun p => p.id == postId) with
    | none => (.error ("Post with id " ++ postId ++ " not found"), s)
    | some _ =>
      let newComment : CommentRec :=
        { id := freshId, content := content
          author := { id := cu.id, username := cu.username, avatar := cu.avatar }
          createdAt := now }
      (.ok newComment,
        { s with posts :=
            (modifyFirst (fun p => p.id == postId)
              (fun p => { p with comments := p.comments ++ [newComment] }) s.posts) })

/-- `toggleLikeLocal`: requires the `user` record; not-found if no post has
the id; then unconditionally increments the like counter (no per-user
tracking). -/
def toggleLikeLocal (postId : String) (s : LocalState) :
    Except String Unit × LocalState :=
  match s.currentUser with
  | none => (.error "You must be logged in to like a post", s)
  | some _ =>
    match s.posts.find? (fun p => p.id == postId) with
    | none => (.error ("Post with id " ++ postId ++ " not found"), s)
    | some _ =>
      (.ok (), { s with posts :=
          (modifyFirst (fun p => p.id == postId)
            (fun p => { p with likes := p.likes + 1 }) s.posts) })

/-! ## Mode selector (`Api` constructor and per-method dispatch) -/

/-- Outcome of the single `fetch(baseUrl + "/health")` probe: either a
response arrived (with `response.ok` telling whether the status was a
success status) or the fetch threw a network error. -/
inductive ProbeOutcome where
  | response (ok : Bool)
  | fetchError
deriving DecidableEq

/-- `checkBackendConnection`: the resulting `useLocalStorage` flag. A
success status clears the flag; a non-success status or a thrown network
error sets it. -/
def checkBackendConnection : ProbeOutcome → Bool
  | .response true => false
  | .response false => true
  | .fetchError => true

/-- The mode flag held by the `Api` object for the life of the session. -/
structure ApiState where
  useLocalStorage : Bool
deriving DecidableEq

/-- `Api` construction: the probe is issued exactly once here (the only
call site of `checkBackendConnection` in the source) and its outcome fixes
the flag. -/
def apiStart (probe : ProbeOutcome) : ApiState :=
  { useLocalStorage := checkBackendConnection probe }

/-- The data operations exposed by `Api`; every one of them begins with
`if (this.useLocalStorage) return xxxLocal(...)` and otherwise performs the
HTTP request, and none of them assigns the flag. -/
inductive ApiOp where
  | login | register | updateProfile | getPosts | getPostById
  | createPost | updatePost | deletePost | addComment | toggleLike
deriving DecidableEq

/-- Which implementation serves an operation. -/
inductive Route where
  | localStore | remote
deriving DecidableEq

/-- Dispatch of one operation: the guard every method starts with. The
state component records that no method mutates the flag. -/
def dispatch (st : ApiState) (_op : ApiOp) : Route × ApiState :=
  (if st.useLocalStorage then .localStore else .remote, st)

/-- Run a sequence of operations, threading the `Api` state, collecting
the route each one was dispatched to. -/
def runOps (st : ApiState) : List ApiOp → List Route × ApiState
  | [] => ([], st)
  | op :: ops =>
    let r := dispatch st op
    let rest := runOps r.2 ops
    (r.1 :: rest.1, rest.2)

/-! ## Backend model (`server/index.js`) -/

/-- A user document in the backend store (password stored hashed). -/
structure SUser where
  id : String
  username : String
  email : String
  passwordHash : String
  bio : String
  avatar : String
deriving DecidableEq

/-- A comment subdocument (author is an id reference, populated at read). -/
structure SComment where
  id : String
  content : String
  author : String
  createdAt : String
deriving DecidableEq

/-- A post document (author is an id reference). -/
structure SPost where
  id : String
  title : String
  content : String
  excerpt : String
  coverImage : Option String
  author : String
  tags : List String
  likes : Nat
  comments : List SComment
  createdAt : String
  updatedAt : String
deriving DecidableEq

/-- The backend document store. -/
structure ServerState where
  users : List SUser
  posts : List SPost
deriving DecidableEq

/-- A backend error: HTTP status and the `message` field of the body. -/
abbrev SErr := Nat × String

/-- The user object the auth routes return (no password field). -/
structure SUserView where
  id : String
  username : String
  email : String
  bio : String
  avatar : String
deriving DecidableEq

/-- Project a stored user to the response shape (`select('-password')`). -/
def sview (u : SUser) : SUserView :=
  { id := u.id, username := u.username, email := u.email
    bio := u.bio, avatar := u.avatar }

/-- Outcome of inspecting the Authorization header: no `Bearer` header at
all, a token `jwt.verify` rejects, or a verified token decoding to a user
id. -/
inductive TokenCheck where
  | missing
  | invalid
  | valid (uid : String)
deriving DecidableEq

/-- The `authenticate` middleware: 401 on a missing header, an invalid
token, or a decoded id matching no user; otherwise the acting user. -/
def authenticate (tc : TokenCheck) (users : List SUser) : Except SErr SUser :=
  match tc with
  | .missing => .error (401, "Authentication required")
  | .invalid => .error (401, "Invalid token")
  | .valid uid =>
    match users.find? (fun u => u.id == uid) with
    | none => .error (401, "User not found")
    | some u => .ok u

/-- `POST /api/auth/register`: one combined duplicate check
(`findOne({ $or: [{ email }, { username }] })`) rejecting with the single
message `User already exists`; otherwise store the user with the hashed
password (the hash is the `hashed` parameter) and return the view. -/
def serverRegister (username email hashed freshId : String) (db : ServerState) :
    Except SErr SUserView × ServerState :=
  match db.users.find? (fun u => u.email == email || u.username == username) with
  | some _ => (.error (400, "User already exists"), db)
  | none =>
    let newUser : SUser :=
      { id := freshId, username := username, email := email
        passwordHash := hashed, bio := "", avatar := defaultAvatar username }
    (.ok (sview newUser), { db with users := db.users ++ [newUser] })

/-- `POST /api/auth/login`: find the user by email, check the password via
`bcrypt.compare` (the `compare` parameter), reject both failures with the
same `Invalid credentials`; return the user view (no password). -/
def serverLogin (compare : String → String → Bool) (email password : String)
    (db : ServerState) : Except SErr SUserView × ServerState :=
  match db.users.find? (fun u => u.email == email) with
  | none => (.error (400, "Invalid credentials"), db)
  | some u =>
    if compare password u.passwordHash then (.ok (sview u), db)
    else (.error (400, "Invalid credentials"), db)

/-- The `PUT /api/users/profile` body: only `bio` and `avatar` are ever
read out of it. -/
structure ProfileBody where
  bio : Option String := none
  avatar : Option String := none
deriving DecidableEq

/-- Apply a profile body to a stored user (mongoose drops `undefined`
update values, so an absent key leaves the field alone). -/
def applyProfileBody (u : SUser) (b : ProfileBody) : SUser :=
  { u with bio := b.bio.getD u.bio, avatar := b.avatar.getD u.avatar }

/-- `PUT /api/users/profile`: authenticate, then
`findByIdAndUpdate(req.user._id, { bio, avatar })`; returns the updated
document without the password. -/
def serverUpdateProfile (tc : TokenCheck) (body : ProfileBody)
    (db : ServerState) : Except SErr SUserView × ServerState :=
  match authenticate tc db.users with
  | .error e => (.error e, db)
  | .ok u =>
    (.ok (sview (applyProfileBody u body)),
      { db with users :=
          (modifyFirst (fun x => x.id == u.id) (fun x => applyProfileBody x body) db.users) })

/-- The `PUT /api/posts/:id` body: the route destructures
`title, content, excerpt, coverImage, tags` and assigns all of them. -/
structure SPostBody where
  title : String
  content : String
  excerpt : String
  coverImage : Option String
  tags : List String
deriving DecidableEq

/-- Mongoose `required` validation run by `save()`: `title`, `content` and
`excerpt` must be present and non-empty. -/
def sPostBodyValid (b : SPostBody) : Bool :=
  !(b.title == "") && !(b.content == "") && !(b.excerpt == "")

/-- `PUT /api/posts/:id`: authenticate (401), not-found (404), ownership
check against the stored author reference (403), then assign the body
fields, stamp `updatedAt` and `save()` (a validation failure surfaces as a
500 with the mongoose message, abstracted here as `ValidationError`). -/
def serverUpdatePost (tc : TokenCheck) (pid : String) (body : SPostBody)
    (now : String) (db : ServerState) : Except SErr SPost × ServerState :=
  match authenticate tc db.users with
  | .error e => (.error e, db)
  | .ok u =>
    match db.posts.find? (fun p => p.id == pid) with
    | none => (.error (404, "Post not found"), db)
    | some post =>
      if post.author == u.id then
        if sPostBodyValid body then
          let newPost : SPost :=
            { post with title := body.title, content := body.content
                        excerpt := body.excerpt, coverImage := body.coverImage
                        tags := body.tags, updatedAt := now }
          (.ok newPost,
            { db with posts :=
                (modifyFirst (fun p => p.id == pid) (fun _ => newPost) db.posts) })
        else (.error (500, "ValidationError"), db)
      else (.error (403, "Not authorized to update this post"), db)

/-- `DELETE /api/posts/:id`: authenticate (401), not-found (404),
ownership check (403), then `findByIdAndDelete`. -/
def serverDeletePost (tc : TokenCheck) (pid : String) (db : ServerState) :
    Except SErr Unit × ServerState :=
  match authenticate tc db.users with
  | .error e => (.error e, db)
  | .ok u =>
    match db.posts.find? (fun p => p.id == pid) with
    | none => (.error (404, "Post not found"), db)
    | some post =>
      if post.author == u.id then
        (.ok (), { db with posts := db.posts.eraseP (fun p => p.id == pid) })
      else (.error (403, "Not authorized to delete this post"), db)

/-- `POST /api/posts/:id/like`: authenticate (401), not-found (404), then
increment the counter unconditionally and return the new count. -/
def serverLikePost (tc : TokenCheck) (pid : String) (db : ServerState) :
    Except SErr Nat × ServerState :=
  match authenticate tc db.users with
  | .error e => (.error e, db)
  | .ok _ =>
    match db.posts.find? (fun p => p.id == pid) with
    | none => (.error (404, "Post not found"), db)
    | some post =>
      (.ok (post.likes + 1),
        { db with posts :=
            (modifyFirst (fun p => p.id == pid) (fun p => { p with likes := p.likes + 1 }) db.posts) })

/-- The resolved value of an operation, if it resolved. -/
def okValue : Except String α × LocalState → Option α
  | (.ok a, _) => some a
  | (.error _, _) => none

/-- Whether an operation result is a rejection. -/
def isErr : Except ε α → Bool
  | .error _ => true
  | .ok _ => false

/-! ## Concrete sample data -/

/-- A registered local user. -/
def aliceUser : UserRec :=
  { id := "u1", username := "alice", email := "alice@x.com", password := "pw1"
    bio := "", avatar := "a.png" }

/-- The session record of `aliceUser`. -/
def aliceSession : SessionUser :=
  { id := "u1", username := "alice", email := "alice@x.com", bio := ""
    avatar := "a.png" }

/-- A second session identity. -/
def bobSession : SessionUser :=
  { id := "u2", username := "bob", email := "bob@x.com", bio := ""
    avatar := "b.png" }

/-- A stored post authored by alice. -/
def alicePost : PostRec :=
  { id := "p1", title := "Hi", content := "hello world", excerpt := "hello"
    coverImage := none
    author := { id := "u1", username := "alice", avatar := "a.png" }
    createdAt := "t0", updatedAt := "t0", tags := [], likes := 0, comments := [] }

/-- Local state with alice logged in. -/
def demoLocal : LocalState :=
  { users := [aliceUser], currentUser := some aliceSession, posts := [alicePost] }

/-- Local state with bob logged in (not the author of `alicePost`). -/
def demoLocalBob : LocalState :=
  { users := [aliceUser], currentUser := some bobSession, posts := [alicePost] }

/-- Local state with nobody logged in. -/
def demoNoUser : LocalState :=
  { users := [aliceUser], currentUser := none, posts := [alicePost] }

/-- A backend user. -/
def sAlice : SUser :=
  { id := "u1", username := "alice", email := "alice@x.com", passwordHash := "h1"
    bio := "", avatar := "a.png" }

/-- A second backend user. -/
def sBob : SUser :=
  { id := "u2", username := "bob", email := "bob@x.com", passwordHash := "h2"
    bio := "", avatar := "b.png" }

/-- A backend post authored by `sAlice`. -/
def sPost1 : SPost :=
  { id := "p1", title := "Hi", content := "hello", excerpt := "h"
    coverImage := none, author := "u1", tags := [], likes := 0, comments := []
    createdAt := "t0", updatedAt := "t0" }

/-- Backend state with two users and one post. -/
def demoServer : ServerState := { users := [sAlice, sBob], posts := [sPost1] }

/-- A fully populated post-update body. -/
def demoBody : SPostBody :=
  { title := "T", content := "C", excerpt := "E", coverImage := none, tags := [] }

/-- A 160-character content string. -/
def longContent : String := String.mk (List.replicate 160 'a')

/-! ## Helper lemmas about `modifyFirst`, `eraseP` and `find?` -/

/-- If `f` preserves `p`, a `find?` for `p` after `modifyFirst p f` returns
the image under `f` of what it returned before. -/
theorem find?_modifyFirst (p : α → Bool) (f : α → α)
    (h : ∀ a, p a = true → p (f a) = true) :
    ∀ l : List α, (modifyFirst p f l).find? p = (l.find? p).map f := by
  intro l
  induction l with
  | nil => rfl
  | cons x xs ih =>
    cases hx : p x with
    | true => simp [modifyFirst, hx, List.find?_cons, h x hx]
    | false => simp [modifyFirst, hx, List.find?_cons, ih]

/-- If `f` preserves `p`, the elements not satisfying `p` are untouched by
`modifyFirst p f`. -/
theorem filter_not_modifyFirst (p : α → Bool) (f : α → α)
    (h : ∀ a, p a = true → p (f a) = true) :
    ∀ l : List α, (modifyFirst p f l).filter (fun a => !p a) =
      l.filter (fun a => !p a) := by
  intro l
  induction l with
  | nil => rfl
  | cons x xs ih =>
    cases hx : p x with
    | true => simp [modifyFirst, hx, List.filter_cons, h x hx]
    | false => simp [modifyFirst, hx, List.filter_cons, ih]

/-- When at most one element satisfies `p`, removing the first match is the
same as filtering all matches out. -/
theorem eraseP_eq_filter_not (p : α → Bool) :
    ∀ l : List α, l.countP p ≤ 1 → l.eraseP p = l.filter (fun a => !p a) := by
  intro l
  induction l with
  | nil => intro; rfl
  | cons x xs ih =>
    intro hc
    cases hx : p x with
    | true =>
      have hzero : xs.countP p = 0 := by
        simpa [List.countP_cons, hx] using hc
      have hall : ∀ a ∈ xs, ¬ p a = true := List.countP_eq_zero.mp hzero
      simp only [List.eraseP_cons, List.filter_cons, hx, cond_true, Bool.not_true,
        if_neg Bool.false_ne_true]
      exact (List.filter_eq_self.mpr (fun a ha => by simp [hall a ha])).symm
    | false =>
      have hc' : xs.countP p ≤ 1 := by simpa [List.countP_cons, hx] using hc
      simp [List.eraseP_cons, List.filter_cons, hx, ih hc']

/-- Elements filtered out by a predicate can no longer be found by it. -/
theorem find?_filter_not (p : α → Bool) (l : List α) :
    (l.filter (fun a => !p a)).find? p = none := by
  apply List.find?_eq_none.mpr
  intro x hx
  have hnot := (List.mem_filter.mp hx).2
  simp only [Bool.not_eq_true', Bool.not_eq_false] at hnot
  simp [hnot]

/-! ## Claim theorems -/

/-- Claim C1: for a stored post, update and delete — in the local fallback
store and in the backend routes alike — reject with an authentication
failure when no authenticated identity is present, reject with an
authorization failure when the authenticated identity's user id differs
from the post's author id, and let the mutation proceed exactly for the
author. -/
theorem post_mutation_author_only
    (s : LocalState) (pid now : String) (patch : PostPatch) (post : PostRec)
    (cu : SessionUser)
    (hfind : s.posts.find? (fun p => p.id == pid) = some post)
    (db : ServerState) (tc : TokenCheck) (body : SPostBody) (snow : String)
    (spost : SPost) (u : SUser) (e : SErr)
    (hsfind : db.posts.find? (fun p => p.id == pid) = some spost) :
    (s.currentUser = none →
      updatePostLocal pid patch now s =
        (.error "You must be logged in to update a post", s)) ∧
    (s.currentUser = some cu → ¬ post.author.id = cu.id →
      updatePostLocal pid patch now s =
        (.error "You can only update your own posts", s)) ∧
    (s.currentUser = some cu → post.author.id = cu.id →
      (updatePostLocal pid patch now s).1 =
        .ok { applyPostPatch post patch with updatedAt := now }) ∧
    (s.currentUser = none →
      deletePostLocal pid s =
        (.error "You must be logged in to delete a post", s)) ∧
    (s.currentUser = some cu → ¬ post.author.id = cu.id →
      deletePostLocal pid s = (.error "You can only delete your own posts", s)) ∧
    (s.currentUser = some cu → post.author.id = cu.id →
      (deletePostLocal pid s).1 = .ok ()) ∧
    (authenticate tc db.users = .error e →
      serverUpdatePost tc pid body snow db = (.error e, db) ∧
      serverDeletePost tc pid db = (.error e, db) ∧ e.1 = 401) ∧
    (authenticate tc db.users = .ok u → ¬ spost.author = u.id →
      serverUpdatePost tc pid body snow db =
        (.error (403, "Not authorized to update this post"), db) ∧
      serverDeletePost tc pid db =
        (.error (403, "Not authorized to delete this post"), db)) ∧
    (authenticate tc db.users = .ok u → spost.author = u.id →
      sPostBodyValid body = true →
      ((serverUpdatePost tc pid body snow db).1 =
        .ok { spost with title := body.title, content := body.content,
                         excerpt := body.excerpt, coverImage := body.coverImage,
                         tags := body.tags, updatedAt := snow } ∧
       (serverDeletePost tc pid db).1 = .ok ())) := by
  refine ⟨?_, ?_, ?_, ?_, ?_, ?_, ?_, ?_, ?_⟩
  · intro h
    simp [updatePostLocal, h]
  · intro h hne
    have hb : (post.author.id == cu.id) = false := beq_eq_false_iff_ne.mpr hne
    simp [updatePostLocal, h, hfind, hb]
  · intro h heq
    have hb : (post.author.id == cu.id) = true := beq_iff_eq.mpr heq
    simp [updatePostLocal, h, hfind, hb]
  · intro h
    simp [deletePostLocal, h]
  · intro h hne
    have hb : (post.author.id == cu.id) = false := beq_eq_false_iff_ne.mpr hne
    simp [deletePostLocal, h, hfind, hb]
  · intro h heq
    have hb : (post.author.id == cu.id) = true := beq_iff_eq.mpr heq
    simp [deletePostLocal, h, hfind, hb]
  · intro h
    refine ⟨by simp [serverUpdatePost, h], by simp [serverDeletePost, h], ?_⟩
    cases tc with
    | missing =>
      simp [authenticate] at h
      simp [← h]
    | invalid =>
      simp [authenticate] at h
      simp [← h]
    | valid uid =>
      cases hf : db.users.find? (fun u => u.id == uid) with
      | none =>
        simp [authenticate, hf] at h
        simp [← h]
      | some w =>
        simp [authenticate, hf] at h
  · intro h hne
    have hb : (spost.author == u.id) = false := beq_eq_false_iff_ne.mpr hne
    exact ⟨by simp [serverUpdatePost, h, hsfind, hb],
           by simp [serverDeletePost, h, hsfind, hb]⟩
  · intro h heq hv
    have hb : (spost.author == u.id) = true := beq_iff_eq.mpr heq
    exact ⟨by simp [serverUpdatePost, h, hsfind, hb, hv],
           by simp [serverDeletePost, h, hsfind, hb]⟩

/-- Claim C2: the reachability probe outcome is fixed at construction; a
network error or non-success status yields local mode, a success status
yields remote mode; every subsequent operation of the session is
dispatched accordingly and no operation changes the mode flag. -/
theorem mode_selected_once_and_fixed (probe : ProbeOutcome) (ops : List ApiOp) :
    runOps (apiStart probe) ops =
      (ops.map (fun _ =>
        if probe = ProbeOutcome.response true then Route.remote else Route.localStore),
       apiStart probe) := by
  induction ops with
  | nil => rfl
  | cons op ops ih =>
    cases probe with
    | response ok =>
      cases ok <;>
        simp_all [runOps, dispatch, apiStart, checkBackendConnection]
    | fetchError =>
      simp_all [runOps, dispatch, apiStart, checkBackendConnection]

/-- JS `x || ""` collapses to the value itself: with an empty default the
two falsy cases coincide. -/
theorem jsOrStr_some_empty (t : String) : jsOrStr (some t) "" = t := by
  by_cases h : t = "" <;> simp [jsOrStr, h]

/-- JS `undefined || d` is `d`. -/
theorem jsOrStr_none (d : String) : jsOrStr none d = d := rfl

/-- Taking at most the length of a string yields exactly `n` characters. -/
theorem string_take_len (c : String) (n : Nat) (h : n ≤ c.length) :
    (c.take n).length = n := by
  rcases c with ⟨l⟩
  rw [String.take_eq]
  have hl : n ≤ l.length := h
  show (l.take n).length = n
  rw [List.length_take]
  omega

/-- Claim C3: a create-post payload with no excerpt gets the first 150
characters of its content as excerpt (hence exactly 150 characters when
the content is at least that long), and a blank title defaults to
`Untitled`. -/
theorem create_post_excerpt_title_defaults (postData : PostPatch)
    (freshId now : String) (s : LocalState) (cu : SessionUser) (c : String)
    (hcu : s.currentUser = some cu) (hc : postData.content = some c) :
    (postData.excerpt = none →
      (okValue (createPostLocal postData freshId now s)).map PostRec.excerpt =
        some (c.take 150)) ∧
    (postData.excerpt = none → 150 ≤ c.length →
      (okValue (createPostLocal postData freshId now s)).map
        (fun p => p.excerpt.length) = some 150) ∧
    ((postData.title = none ∨ postData.title = some "") →
      (okValue (createPostLocal postData freshId now s)).map PostRec.title =
        some "Untitled") := by
  refine ⟨?_, ?_, ?_⟩
  · intro hex
    simp [createPostLocal, hcu, okValue, hex, hc, jsOrStr_none, jsOrStr_some_empty]
  · intro hex hlen
    simp [createPostLocal, hcu, okValue, hex, hc, jsOrStr_none, jsOrStr_some_empty,
      string_take_len c 150 hlen]
  · intro hti
    cases hti with
    | inl h => simp [createPostLocal, hcu, okValue, h, jsOrStr]
    | inr h => simp [createPostLocal, hcu, okValue, h, jsOrStr]

/-- Claim C4 counterexample: in remote mode the backend rejects a
username-only collision and an email-only collision with the identical
generic error `User already exists` — there is no distinct
duplicate-username error and no email-before-username precedence on the
backend, contrary to the claim's "in either mode". -/
theorem register_duplicate_errors_remote_not_distinct :
    (serverRegister "alice" "new@x.com" "h2" "u9"
      { users := [{ id := "u1", username := "alice", email := "alice@x.com",
                    passwordHash := "h1", bio := "", avatar := "" }],
        posts := [] }).1 = .error (400, "User already exists") ∧
    (serverRegister "bob" "alice@x.com" "h2" "u9"
      { users := [{ id := "u1", username := "alice", email := "alice@x.com",
                    passwordHash := "h1", bio := "", avatar := "" }],
        posts := [] }).1 = .error (400, "User already exists") := by
  constructor <;> rfl

/-- Claim C4 as amended: in local mode a duplicate email is rejected with
`Email already in use`, and — the email check being first — a duplicate
username is rejected with `Username already taken` only when the email is
free; in remote mode the backend performs one combined existence check and
rejects with the single generic error `User already exists` whichever of
the two fields collides. -/
theorem register_duplicate_errors_amended
    (s : LocalState) (username email password freshId : String)
    (db : ServerState) (username2 email2 hashed freshId2 : String) (w : SUser) :
    (s.users.any (fun u => u.email == email) = true →
      registerLocal username email password freshId s =
        (.error "Email already in use", s)) ∧
    (s.users.any (fun u => u.email == email) = false →
      s.users.any (fun u => u.username == username) = true →
      registerLocal username email password freshId s =
        (.error "Username already taken", s)) ∧
    (db.users.find? (fun u => u.email == email2 || u.username == username2) =
        some w →
      serverRegister username2 email2 hashed freshId2 db =
        (.error (400, "User already exists"), db)) := by
  refine ⟨?_, ?_, ?_⟩
  · intro h
    simp [registerLocal, h]
  · intro h1 h2
    simp [registerLocal, h1, h2]
  · intro h
    simp [serverRegister, h]

/-- Claim C5: a like on an existing post always succeeds for any
authenticated caller and increments the stored count by exactly 1, with no
per-user dedup, so two likes in sequence add exactly 2 — in the local
store and on the backend alike. -/
theorem like_increments_by_one_and_composes
    (s : LocalState) (cu : SessionUser) (pid : String) (post : PostRec)
    (hcu : s.currentUser = some cu)
    (hfind : s.posts.find? (fun p => p.id == pid) = some post)
    (db : ServerState) (tc : TokenCheck) (u : SUser) (spost : SPost)
    (hauth : authenticate tc db.users = .ok u)
    (hsfind : db.posts.find? (fun p => p.id == pid) = some spost) :
    (toggleLikeLocal pid s).1 = .ok () ∧
    ((toggleLikeLocal pid s).2).posts.find? (fun p => p.id == pid) =
      some { post with likes := post.likes + 1 } ∧
    (toggleLikeLocal pid (toggleLikeLocal pid s).2).1 = .ok () ∧
    ((toggleLikeLocal pid (toggleLikeLocal pid s).2).2).posts.find?
      (fun p => p.id == pid) = some { post with likes := post.likes + 2 } ∧
    (serverLikePost tc pid db).1 = .ok (spost.likes + 1) ∧
    ((serverLikePost tc pid db).2).posts.find? (fun p => p.id == pid) =
      some { spost with likes := spost.likes + 1 } ∧
    (serverLikePost tc pid (serverLikePost tc pid db).2).1 =
      .ok (spost.likes + 2) ∧
    ((serverLikePost tc pid (serverLikePost tc pid db).2).2).posts.find?
      (fun p => p.id == pid) = some { spost with likes := spost.likes + 2 } := by
  have hm := find?_modifyFirst (fun p : PostRec => p.id == pid)
    (fun p => { p with likes := p.likes + 1 }) (fun p hp => hp)
  have hms := find?_modifyFirst (fun p : SPost => p.id == pid)
    (fun p => { p with likes := p.likes + 1 }) (fun p hp => hp)
  have hfind1 : (modifyFirst (fun p : PostRec => p.id == pid)
      (fun p => { p with likes := p.likes + 1 }) s.posts).find?
        (fun p => p.id == pid) = some { post with likes := post.likes + 1 } := by
    rw [hm s.posts, hfind]
    rfl
  have hsfind1 : (modifyFirst (fun p : SPost => p.id == pid)
      (fun p => { p with likes := p.likes + 1 }) db.posts).find?
        (fun p => p.id == pid) = some { spost with likes := spost.likes + 1 } := by
    rw [hms db.posts, hsfind]
    rfl
  have e1 : toggleLikeLocal pid s = (.ok (), { s with posts :=
      (modifyFirst (fun p => p.id == pid)
        (fun p => { p with likes := p.likes + 1 }) s.posts) }) := by
    simp [toggleLikeLocal, hcu, hfind]
  have es1 : serverLikePost tc pid db = (.ok (spost.likes + 1), { db with posts :=
      (modifyFirst (fun p => p.id == pid)
        (fun p => { p with likes := p.likes + 1 }) db.posts) }) := by
    simp [serverLikePost, hauth, hsfind]
  refine ⟨by rw [e1], by rw [e1]; exact hfind1, ?_, ?_, by rw [es1], by rw [es1]; exact hsfind1, ?_, ?_⟩
  · rw [e1]
    simp [toggleLikeLocal, hcu, hfind1]
  · rw [e1]
    simp only [toggleLikeLocal, hcu, hfind1]
    rw [hm, hfind1]
    rfl
  · rw [es1]
    simp [serverLikePost, hauth, hsfind1]
  · rw [es1]
    simp only [serverLikePost, hauth, hsfind1]
    rw [hms, hsfind1]
    rfl

/-- Claim C6: after the author deletes a stored post (assuming, as the
UUID allocation guarantees, that at most one stored post carries the id),
the post list no longer contains it while every other post is kept
unchanged in order, and fetching the id rejects with not-found. -/
theorem delete_post_removes_and_not_found
    (s : LocalState) (cu : SessionUser) (pid : String) (post : PostRec)
    (hcu : s.currentUser = some cu)
    (hfind : s.posts.find? (fun p => p.id == pid) = some post)
    (hauth : post.author.id = cu.id)
    (huniq : s.posts.countP (fun p => p.id == pid) ≤ 1) :
    (deletePostLocal pid s).1 = .ok () ∧
    (getPostsLocal (deletePostLocal pid s).2).1 =
      .ok (s.posts.filter (fun p => !(p.id == pid))) ∧
    post ∉ ((deletePostLocal pid s).2).posts ∧
    (getPostByIdLocal pid (deletePostLocal pid s).2).1 =
      .error ("Post with id " ++ pid ++ " not found") := by
  have hb : (post.author.id == cu.id) = true := beq_iff_eq.mpr hauth
  have e1 : deletePostLocal pid s =
      (.ok (), { s with posts := s.posts.eraseP (fun p => p.id == pid) }) := by
    simp [deletePostLocal, hcu, hfind, hb]
  have hef : s.posts.eraseP (fun p => p.id == pid) =
      s.posts.filter (fun p => !(p.id == pid)) :=
    eraseP_eq_filter_not _ _ huniq
  have hpid : (post.id == pid) = true := by
    have := List.find?_some hfind
    exact this
  refine ⟨by rw [e1], ?_, ?_, ?_⟩
  · rw [e1]
    simp [getPostsLocal, hef]
  · rw [e1]
    intro hmem
    rw [hef] at hmem
    have := (List.mem_filter.mp hmem).2
    rw [hpid] at this
    simp at this
  · rw [e1]
    simp only [getPostByIdLocal, hef]
    rw [find?_filter_not]

/-- Claim C7: registering fresh credentials in either mode and logging in
with exactly those credentials succeeds and returns the user object
consisting of id, username, email, bio and avatar only — no password
field (locally the plaintext comparison, remotely the bcrypt comparison,
whose contract `compare pw hashed = true` for the hash minted at
registration is the hypothesis `hcmp`). -/
theorem register_then_login_returns_user_without_password
    (s : LocalState) (username email pw freshId : String)
    (hem : s.users.any (fun u => u.email == email) = false)
    (hun : s.users.any (fun u => u.username == username) = false)
    (db : ServerState) (username2 email2 pw2 hashed freshId2 : String)
    (compare : String → String → Bool)
    (hcmp : compare pw2 hashed = true)
    (hsdup : db.users.find?
      (fun u => u.email == email2 || u.username == username2) = none) :
    (registerLocal username email pw freshId s).1 =
      .ok { id := freshId, username := username, email := email, bio := "",
            avatar := defaultAvatar username } ∧
    (loginLocal email pw (registerLocal username email pw freshId s).2).1 =
      .ok { id := freshId, username := username, email := email, bio := "",
            avatar := defaultAvatar username } ∧
    (serverRegister username2 email2 hashed freshId2 db).1 =
      .ok { id := freshId2, username := username2, email := email2, bio := "",
            avatar := defaultAvatar username2 } ∧
    (serverLogin compare email2 pw2
        (serverRegister username2 email2 hashed freshId2 db).2).1 =
      .ok { id := freshId2, username := username2, email := email2, bio := "",
            avatar := defaultAvatar username2 } := by
  have h1 : s.users.find? (fun u => u.email == email && u.password == pw) = none := by
    apply List.find?_eq_none.mpr
    intro x hx
    have hx1 := (List.any_eq_false.mp hem) x hx
    simp only [Bool.not_eq_true] at hx1
    simp [hx1]
  have h2 : db.users.find? (fun u => u.email == email2) = none := by
    apply List.find?_eq_none.mpr
    intro x hx
    have hx1 := List.find?_eq_none.mp hsdup x hx
    simp only [Bool.or_eq_true, Bool.not_eq_true, not_or] at hx1
    simp [hx1.1]
  refine ⟨?_, ?_, ?_, ?_⟩
  · simp [registerLocal, hem, hun, stripPassword]
  · simp only [registerLocal, hem, hun, Bool.false_eq_true, if_false]
    simp only [loginLocal, List.find?_append, h1, Option.none_or]
    simp [stripPassword]
  · simp [serverRegister, hsdup, sview]
  · simp only [serverRegister, hsdup]
    simp only [serverLogin, List.find?_append, h2, Option.none_or]
    simp [hcmp, sview]

/-- Claim C8: when the author updates their own stored post supplying only
a new title and content, the operation succeeds and both the returned and
the stored post carry the new title and content, the fresh `updatedAt`
(different from the old one whenever the clock moved), and the untouched
id, author snapshot, `createdAt`, like count and comment sequence; every
post with a different id is untouched, in order. -/
theorem author_update_frame
    (s : LocalState) (cu : SessionUser) (pid t c now : String) (post : PostRec)
    (hcu : s.currentUser = some cu)
    (hfind : s.posts.find? (fun p => p.id == pid) = some post)
    (hauth : post.author.id = cu.id) :
    (updatePostLocal pid { title := some t, content := some c } now s).1 =
      .ok { post with title := t, content := c, updatedAt := now } ∧
    ((updatePostLocal pid { title := some t, content := some c } now s).2).posts.find?
      (fun p => p.id == pid) =
      some { post with title := t, content := c, updatedAt := now } ∧
    (¬ now = post.updatedAt →
      ¬ (okValue (updatePostLocal pid { title := some t, content := some c } now s)).map
          PostRec.updatedAt = some post.updatedAt) ∧
    ((updatePostLocal pid { title := some t, content := some c } now s).2).posts.filter
      (fun p => !(p.id == pid)) = s.posts.filter (fun p => !(p.id == pid)) := by
  have hb : (post.author.id == cu.id) = true := beq_iff_eq.mpr hauth
  have hpid : (post.id == pid) = true := by
    have h := List.find?_some hfind
    exact h
  have e1 : updatePostLocal pid { title := some t, content := some c } now s =
      (.ok { post with title := t, content := c, updatedAt := now },
       { s with posts :=
          (modifyFirst (fun p => p.id == pid)
            (fun _ => { post with title := t, content := c, updatedAt := now })
            s.posts) }) := by
    simp [updatePostLocal, hcu, hfind, hb, applyPostPatch]
  have hpres : ∀ p : PostRec, (p.id == pid) = true →
      ((({ post with title := t, content := c, updatedAt := now } : PostRec)).id == pid) = true :=
    fun _ _ => hpid
  refine ⟨by rw [e1], ?_, ?_, ?_⟩
  · rw [e1]
    rw [find?_modifyFirst (fun p => p.id == pid) _ hpres s.posts, hfind]
    rfl
  · intro hne
    rw [e1]
    simp [okValue]
    exact fun h => hne h
  · rw [e1]
    exact filter_not_modifyFirst _ _ hpres s.posts

/-- Claim C9 counterexample: in local-fallback mode the profile update
spreads the whole payload over the stored user record, so a payload
carrying a `username` key changes the username — a field the claim says
remains unchanged for every profile-update request. -/
theorem profile_update_local_not_limited_to_bio_avatar :
    (((updateProfileLocal ({ username := some "evil" } : ProfilePatch)
        { users := [{ id := "u1", username := "alice", email := "alice@x.com",
                      password := "pw1", bio := "", avatar := "" }],
          currentUser := some { id := "u1", username := "alice",
                                email := "alice@x.com", bio := "", avatar := "" },
          posts := [] }).2).users.map UserRec.username = ["evil"]) ∧
    (({ users := [{ id := "u1", username := "alice", email := "alice@x.com",
                    password := "pw1", bio := "", avatar := "" }],
        currentUser := some { id := "u1", username := "alice",
                              email := "alice@x.com", bio := "", avatar := "" },
        posts := [] } : LocalState).users.map UserRec.username = ["alice"]) := by
  constructor <;> rfl

/-- Claim C9 as amended: in remote mode the route extracts only `bio` and
`avatar` from the body, so exactly those two fields of the acting user's
record can change, every other field and every other user are untouched,
and the response omits the password; in local-fallback mode the same frame
conditions hold only under the proviso that the payload carries nothing
besides `bio` and `avatar` (the implementation spreads the whole payload),
and the returned user again omits the password field. -/
theorem profile_update_frame_amended
    (tc : TokenCheck) (body : ProfileBody) (db : ServerState) (u : SUser)
    (hsauth : authenticate tc db.users = .ok u)
    (s : LocalState) (cu : SessionUser) (data : ProfilePatch) (w : UserRec)
    (hcu : s.currentUser = some cu)
    (hw : s.users.find? (fun x => x.id == cu.id) = some w)
    (hid : data.id = none) (husr : data.username = none)
    (heml : data.email = none) (hpw : data.password = none) :
    (serverUpdateProfile tc body db).1 = .ok (sview (applyProfileBody u body)) ∧
    (applyProfileBody u body).id = u.id ∧
    (applyProfileBody u body).username = u.username ∧
    (applyProfileBody u body).email = u.email ∧
    (applyProfileBody u body).passwordHash = u.passwordHash ∧
    ((serverUpdateProfile tc body db).2).users.find? (fun x => x.id == u.id) =
      some (applyProfileBody u body) ∧
    ((serverUpdateProfile tc body db).2).users.filter (fun x => !(x.id == u.id)) =
      db.users.filter (fun x => !(x.id == u.id)) ∧
    (updateProfileLocal data s).1 = .ok (stripPassword (applyProfilePatch w data)) ∧
    (applyProfilePatch w data).id = w.id ∧
    (applyProfilePatch w data).username = w.username ∧
    (applyProfilePatch w data).email = w.email ∧
    (applyProfilePatch w data).password = w.password ∧
    ((updateProfileLocal data s).2).users.find? (fun x => x.id == cu.id) =
      some (applyProfilePatch w data) ∧
    ((updateProfileLocal data s).2).users.filter (fun x => !(x.id == cu.id)) =
      s.users.filter (fun x => !(x.id == cu.id)) := by
  have hufind : db.users.find? (fun x => x.id == u.id) = some u := by
    cases tc with
    | missing => simp [authenticate] at hsauth
    | invalid => simp [authenticate] at hsauth
    | valid uid =>
      cases hf : db.users.find? (fun x => x.id == uid) with
      | none => simp [authenticate, hf] at hsauth
      | some w2 =>
        simp only [authenticate, hf, Except.ok.injEq] at hsauth
        subst hsauth
        have huid : (w2.id == uid) = true := by
          have h := List.find?_some hf
          exact h
        have heq : w2.id = uid := by simpa using huid
        rw [heq]
        exact hf
  have hspres : ∀ x : SUser, (x.id == u.id) = true →
      ((applyProfileBody x body).id == u.id) = true := fun x hx => hx
  have hlpres : ∀ x : UserRec, (x.id == cu.id) = true →
      ((applyProfilePatch x data).id == cu.id) = true := by
    intro x hx
    simp only [applyProfilePatch, hid, Option.getD_none]
    exact hx
  refine ⟨by simp [serverUpdateProfile, hsauth], rfl, rfl, rfl, rfl, ?_, ?_,
    ?_, ?_, ?_, ?_, ?_, ?_, ?_⟩
  · simp only [serverUpdateProfile, hsauth]
    rw [find?_modifyFirst _ _ hspres db.users, hufind]
    rfl
  · simp only [serverUpdateProfile, hsauth]
    exact filter_not_modifyFirst _ _ hspres db.users
  · simp [updateProfileLocal, hcu, hw]
  · simp [applyProfilePatch, hid]
  · simp [applyProfilePatch, husr]
  · simp [applyProfilePatch, heml]
  · simp [applyProfilePatch, hpw]
  · simp only [updateProfileLocal, hcu, hw]
    rw [find?_modifyFirst _ _ hlpres s.users, hw]
    rfl
  · simp only [updateProfileLocal, hcu, hw]
    exact filter_not_modifyFirst _ _ hlpres s.users

/-- Claim C10: every rejection of a local-fallback operation — not
authenticated, not found, not the author, duplicate email or username, bad
credentials — leaves the persisted state exactly as it was: writes happen
only after all checks pass. -/
theorem failed_local_ops_leave_state_unchanged
    (s : LocalState) (email pw username freshId now pid content : String)
    (patch : PostPatch) (data : ProfilePatch) :
    (isErr (loginLocal email pw s).1 = true → (loginLocal email pw s).2 = s) ∧
    (isErr (registerLocal username email pw freshId s).1 = true →
      (registerLocal username email pw freshId s).2 = s) ∧
    (isErr (updateProfileLocal data s).1 = true →
      (updateProfileLocal data s).2 = s) ∧
    (isErr (getPostByIdLocal pid s).1 = true → (getPostByIdLocal pid s).2 = s) ∧
    (isErr (createPostLocal patch freshId now s).1 = true →
      (createPostLocal patch freshId now s).2 = s) ∧
    (isErr (updatePostLocal pid patch now s).1 = true →
      (updatePostLocal pid patch now s).2 = s) ∧
    (isErr (deletePostLocal pid s).1 = true → (deletePostLocal pid s).2 = s) ∧
    (isErr (addCommentLocal pid content freshId now s).1 = true →
      (addCommentLocal pid content freshId now s).2 = s) ∧
    (isErr (toggleLikeLocal pid s).1 = true → (toggleLikeLocal pid s).2 = s) := by
  refine ⟨?_, ?_, ?_, ?_, ?_, ?_, ?_, ?_, ?_⟩
  · cases hf : s.users.find? (fun u => u.email == email && u.password == pw) <;>
      simp [loginLocal, hf, isErr]
  · cases he : s.users.any (fun u => u.email == email) <;>
      cases hu : s.users.any (fun u => u.username == username) <;>
        simp [registerLocal, he, hu, isErr]
  · cases hc : s.currentUser with
    | none => simp [updateProfileLocal, hc, isErr]
    | some cu =>
      cases hf : s.users.find? (fun x => x.id == cu.id) <;>
        simp [updateProfileLocal, hc, hf, isErr]
  · cases hf : s.posts.find? (fun p => p.id == pid) <;>
      simp [getPostByIdLocal, hf, isErr]
  · cases hc : s.currentUser <;> simp [createPostLocal, hc, isErr]
  · cases hc : s.currentUser with
    | none => simp [updatePostLocal, hc, isErr]
    | some cu =>
      cases hf : s.posts.find? (fun p => p.id == pid) with
      | none => simp [updatePostLocal, hc, hf, isErr]
      | some post =>
        cases hb : (post.author.id == cu.id) <;>
          simp [updatePostLocal, hc, hf, hb, isErr]
  · cases hc : s.currentUser with
    | none => simp [deletePostLocal, hc, isErr]
    | some cu =>
      cases hf : s.posts.find? (fun p => p.id == pid) with
      | none => simp [deletePostLocal, hc, hf, isErr]
      | some post =>
        cases hb : (post.author.id == cu.id) <;>
          simp [deletePostLocal, hc, hf, hb, isErr]
  · cases hc : s.currentUser with
    | none => simp [addCommentLocal, hc, isErr]
    | some cu =>
      cases hf : s.posts.find? (fun p => p.id == pid) <;>
        simp [addCommentLocal, hc, hf, isErr]
  · cases hc : s.currentUser with
    | none => simp [toggleLikeLocal, hc, isErr]
    | some cu =>
      cases hf : s.posts.find? (fun p => p.id == pid) <;>
        simp [toggleLikeLocal, hc, hf, isErr]

/-! ## Witnesses instantiating the conditional theorems -/

/-- Witness for C1 at concrete states: an unauthenticated update, a
non-author update, an author delete, and their backend counterparts. -/
theorem post_mutation_author_only_witness :
    updatePostLocal "p1" {} "t1" demoNoUser =
      (.error "You must be logged in to update a post", demoNoUser) ∧
    updatePostLocal "p1" {} "t1" demoLocalBob =
      (.error "You can only update your own posts", demoLocalBob) ∧
    (deletePostLocal "p1" demoLocal).1 = .ok () ∧
    serverUpdatePost .missing "p1" demoBody "t1" demoServer =
      (.error (401, "Authentication required"), demoServer) ∧
    serverUpdatePost (.valid "u2") "p1" demoBody "t1" demoServer =
      (.error (403, "Not authorized to update this post"), demoServer) ∧
    (serverDeletePost (.valid "u1") "p1" demoServer).1 = .ok () := by
  have hN := post_mutation_author_only demoNoUser "p1" "t1" {} alicePost
    aliceSession (by decide) demoServer .missing demoBody "t1" sPost1 sAlice
    (401, "Authentication required") (by decide)
  have hB := post_mutation_author_only demoLocalBob "p1" "t1" {} alicePost
    bobSession (by decide) demoServer (.valid "u2") demoBody "t1" sPost1 sBob
    (401, "x") (by decide)
  have hA := post_mutation_author_only demoLocal "p1" "t1" {} alicePost
    aliceSession (by decide) demoServer (.valid "u1") demoBody "t1" sPost1
    sAlice (401, "x") (by decide)
  exact ⟨hN.1 rfl, hB.2.1 rfl (by decide), hA.2.2.2.2.2.1 rfl (by decide),
    (hN.2.2.2.2.2.2.1 rfl).1,
    (hB.2.2.2.2.2.2.2.1 rfl (by decide)).1,
    (hA.2.2.2.2.2.2.2.2 rfl (by decide) rfl).2⟩

/-- Witness for C3: a 160-character content with no excerpt and no title
yields a 150-character excerpt and the `Untitled` default. -/
theorem create_post_excerpt_title_defaults_witness :
    (okValue (createPostLocal ({ content := some longContent } : PostPatch)
      "p9" "t9" demoLocal)).map PostRec.excerpt = some (longContent.take 150) ∧
    (okValue (createPostLocal ({ content := some longContent } : PostPatch)
      "p9" "t9" demoLocal)).map (fun p => p.excerpt.length) = some 150 ∧
    (okValue (createPostLocal ({ content := some longContent } : PostPatch)
      "p9" "t9" demoLocal)).map PostRec.title = some "Untitled" := by
  have h := create_post_excerpt_title_defaults { content := some longContent }
    "p9" "t9" demoLocal aliceSession longContent rfl rfl
  have hlen : 150 ≤ longContent.length := by
    have e : longContent.length = (List.replicate 160 'a').length := rfl
    rw [e, List.length_replicate]
    omega
  exact ⟨h.1 rfl, h.2.1 rfl hlen, h.2.2 (Or.inl rfl)⟩

/-- Witness for C4 as amended: concrete email and username collisions in
both modes. -/
theorem register_duplicate_errors_amended_witness :
    registerLocal "alice" "alice@x.com" "pw9" "u9" demoLocal =
      (.error "Email already in use", demoLocal) ∧
    registerLocal "alice" "new@x.com" "pw9" "u9" demoLocal =
      (.error "Username already taken", demoLocal) ∧
    serverRegister "alice" "new@x.com" "h9" "u9" demoServer =
      (.error (400, "User already exists"), demoServer) := by
  have h1 := register_duplicate_errors_amended demoLocal "alice" "alice@x.com"
    "pw9" "u9" demoServer "alice" "new@x.com" "h9" "u9" sAlice
  have h2 := register_duplicate_errors_amended demoLocal "alice" "new@x.com"
    "pw9" "u9" demoServer "alice" "new@x.com" "h9" "u9" sAlice
  exact ⟨h1.1 (by decide), h2.2.1 (by decide) (by decide), h1.2.2 (by decide)⟩

/-- Witness for C5: two likes on a concrete post add exactly 2 in both
modes. -/
theorem like_increments_by_one_and_composes_witness :
    (toggleLikeLocal "p1" demoLocal).1 = .ok () ∧
    ((toggleLikeLocal "p1" (toggleLikeLocal "p1" demoLocal).2).2).posts.find?
      (fun p => p.id == "p1") = some { alicePost with likes := alicePost.likes + 2 } ∧
    (serverLikePost (.valid "u2") "p1"
      (serverLikePost (.valid "u2") "p1" demoServer).2).1 =
      .ok (sPost1.likes + 2) := by
  have h := like_increments_by_one_and_composes demoLocal aliceSession "p1"
    alicePost rfl (by decide) demoServer (.valid "u2") sBob sPost1
    rfl (by decide)
  exact ⟨h.1, h.2.2.2.1, h.2.2.2.2.2.2.1⟩

/-- Witness for C6: deleting a concrete post removes it and makes the
subsequent fetch fail with not-found. -/
theorem delete_post_removes_and_not_found_witness :
    alicePost ∉ ((deletePostLocal "p1" demoLocal).2).posts ∧
    (getPostByIdLocal "p1" (deletePostLocal "p1" demoLocal).2).1 =
      .error ("Post with id " ++ "p1" ++ " not found") := by
  have h := delete_post_removes_and_not_found demoLocal aliceSession "p1"
    alicePost rfl (by decide) (by decide) (by decide)
  exact ⟨h.2.2.1, h.2.2.2⟩

/-- Witness for C7: fresh credentials registered in each mode log straight
back in and return the five-field user object. -/
theorem register_then_login_returns_user_without_password_witness :
    (loginLocal "carol@x.com" "pw3"
      (registerLocal "carol" "carol@x.com" "pw3" "u3" demoLocal).2).1 =
      .ok { id := "u3", username := "carol", email := "carol@x.com", bio := "",
            avatar := defaultAvatar "carol" } ∧
    (serverLogin (fun _ _ => true) "carol@x.com" "pw3"
      (serverRegister "carol" "carol@x.com" "h3" "u3" demoServer).2).1 =
      .ok { id := "u3", username := "carol", email := "carol@x.com", bio := "",
            avatar := defaultAvatar "carol" } := by
  have h := register_then_login_returns_user_without_password demoLocal "carol"
    "carol@x.com" "pw3" "u3" (by decide) (by decide) demoServer "carol"
    "carol@x.com" "pw3" "h3" "u3" (fun _ _ => true) rfl (by decide)
  exact ⟨h.2.1, h.2.2.2⟩

/-- Witness for C8: alice updates her own post with a new title and
content; the result carries them, `updatedAt` moved, other posts kept. -/
theorem author_update_frame_witness :
    (updatePostLocal "p1" { title := some "New", content := some "Body" }
      "t1" demoLocal).1 =
      .ok { alicePost with title := "New", content := "Body", updatedAt := "t1" } ∧
    (¬ (okValue (updatePostLocal "p1"
        { title := some "New", content := some "Body" } "t1" demoLocal)).map
        PostRec.updatedAt = some alicePost.updatedAt) ∧
    ((updatePostLocal "p1" { title := some "New", content := some "Body" }
      "t1" demoLocal).2).posts.filter (fun p => !(p.id == "p1")) =
      demoLocal.posts.filter (fun p => !(p.id == "p1")) := by
  have h := author_update_frame demoLocal aliceSession "p1" "New" "Body" "t1"
    alicePost rfl (by decide) (by decide)
  exact ⟨h.1, h.2.2.1 (by decide), h.2.2.2⟩

/-- Witness for C9 as amended: a bio-only payload in each mode. -/
theorem profile_update_frame_amended_witness :
    (serverUpdateProfile (.valid "u1") { bio := some "b2" } demoServer).1 =
      .ok (sview (applyProfileBody sAlice { bio := some "b2" })) ∧
    (applyProfileBody sAlice { bio := some "b2" }).username = sAlice.username ∧
    (updateProfileLocal { bio := some "b2" } demoLocal).1 =
      .ok (stripPassword (applyProfilePatch aliceUser { bio := some "b2" })) := by
  have h := profile_update_frame_amended (.valid "u1") { bio := some "b2" }
    demoServer sAlice rfl demoLocal aliceSession { bio := some "b2" }
    aliceUser rfl (by decide) rfl rfl rfl rfl
  exact ⟨h.1, h.2.2.1, h.2.2.2.2.2.2.2.1⟩

/-- Witness for C10: a failed login and a failed (unauthenticated) post
update both leave the concrete state untouched. -/
theorem failed_local_ops_leave_state_unchanged_witness :
    (loginLocal "x@x.com" "pw" demoNoUser).2 = demoNoUser ∧
    (updatePostLocal "p9" {} "t9" demoNoUser).2 = demoNoUser := by
  have h := failed_local_ops_leave_state_unchanged demoNoUser "x@x.com" "pw"
    "zoe" "u9" "t9" "p9" "c9" {} {}
  exact ⟨h.1 (by decide), h.2.2.2.2.2.1 (by decide)⟩

end LetsBlog
